import Mathlib

/-!
Verification of the map-generation core of the `civ` repository.

The Rust sources are embedded shallowly:
* `i32`/`u8`/`u64` values are modelled as `Int`/`Nat` (all arithmetic here is
  far from the overflow boundaries, except where a wrap is explicit, in which
  case `% 2^w` appears),
* `f64` values are modelled as `ℚ`; the external noise library, the `f64`
  square root and the external `rand::StdRng` are abstract deterministic
  functions supplied as parameters,
* fallible lookups use `Option`.

Each definition mirrors the function of the same name in the sources
(`src/tile/terrain.rs`, `src/tile/feature.rs`, `src/tile/resource.rs`,
`src/tile/yields.rs`, `src/tile/river.rs`, `src/tile/bundle.rs`,
`src/map/config.rs`, `src/map/generator.rs`).
-/

namespace Civ

/-- The 14 terrain kinds of `src/tile/terrain.rs`. -/
inductive Terrain where
  | Grassland | Plains | Desert | Tundra | Snow
  | GrasslandHill | PlainsHill | DesertHill | TundraHill | SnowHill
  | Mountain
  | Coast | Ocean | Lake
  deriving DecidableEq, Repr

/-- Rust `Terrain::base_food`. -/
def Terrain.base_food : Terrain → Int
  | .Grassland | .Lake => 2
  | .Plains | .Tundra | .Coast | .Ocean => 1
  | _ => 0

/-- Rust `Terrain::base_production`. -/
def Terrain.base_production : Terrain → Int
  | .Plains => 1
  | .GrasslandHill | .PlainsHill | .DesertHill | .TundraHill | .SnowHill => 2
  | _ => 0

/-- Rust `Terrain::base_gold` (always 0). -/
def Terrain.base_gold : Terrain → Int
  | _ => 0

/-- Rust `Terrain::is_water`. -/
def Terrain.is_water : Terrain → Bool
  | .Coast | .Ocean | .Lake => true
  | _ => false

/-- Rust `Terrain::is_hill`. -/
def Terrain.is_hill : Terrain → Bool
  | .GrasslandHill | .PlainsHill | .DesertHill | .TundraHill | .SnowHill => true
  | _ => false

/-- Rust `Terrain::is_flat_land`. -/
def Terrain.is_flat_land : Terrain → Bool
  | .Grassland | .Plains | .Desert | .Tundra | .Snow => true
  | _ => false

/-- The 6 overlay features of `src/tile/feature.rs`. -/
inductive TileFeature where
  | Forest | Jungle | Marsh | Floodplains | Oasis | Ice
  deriving DecidableEq, Repr

/-- Rust `TileFeature::food_modifier`. -/
def TileFeature.food_modifier : TileFeature → Int
  | .Marsh => -1
  | .Floodplains => 2
  | .Oasis => 3
  | _ => 0

/-- Rust `TileFeature::production_modifier`. -/
def TileFeature.production_modifier : TileFeature → Int
  | .Forest => 1
  | .Jungle => -1
  | _ => 0

/-- Rust `TileFeature::gold_modifier`. -/
def TileFeature.gold_modifier : TileFeature → Int
  | .Oasis => 1
  | _ => 0

/-- Rust `TileFeature::can_place_on`. -/
def TileFeature.can_place_on (f : TileFeature) (terrain : Terrain) : Bool :=
  match f with
  | .Forest =>
      match terrain with
      | .Grassland | .Plains | .Tundra | .GrasslandHill | .PlainsHill | .TundraHill => true
      | _ => false
  | .Jungle =>
      match terrain with
      | .Grassland | .Plains | .GrasslandHill | .PlainsHill => true
      | _ => false
  | .Marsh => terrain = .Grassland
  | .Floodplains => terrain = .Desert
  | .Oasis => terrain = .Desert
  | .Ice =>
      match terrain with
      | .Coast | .Ocean => true
      | _ => false

/-- The 27 resources of `src/tile/resource.rs`. -/
inductive TileResource where
  | Cattle | Sheep | Fish | Stone | Wheat | Bananas | Deer
  | Horses | Iron | Coal | Oil | Aluminum | Uranium
  | Citrus | Cotton | Copper | Gold | Crab | Whales | Turtles
  | Olives | Wine | Silk | Spices | Gems | Marble | Ivory
  deriving DecidableEq, Repr

/-- Rust `TileResource::food_bonus`. -/
def TileResource.food_bonus : TileResource → Int
  | .Fish | .Wheat | .Bananas | .Deer | .Citrus | .Crab | .Whales | .Turtles => 1
  | _ => 0

/-- Rust `TileResource::production_bonus`. -/
def TileResource.production_bonus : TileResource → Int
  | .Cattle | .Sheep | .Stone | .Horses | .Iron | .Coal | .Oil | .Aluminum
  | .Uranium | .Olives | .Marble | .Ivory => 1
  | _ => 0

/-- Rust `TileResource::gold_bonus`. -/
def TileResource.gold_bonus : TileResource → Int
  | .Gems => 3
  | .Cotton | .Copper | .Gold | .Wine | .Silk | .Spices => 2
  | .Citrus | .Whales | .Turtles | .Olives | .Marble | .Ivory => 1
  | _ => 0

/-- Rust `TileResource::improved_food_bonus`. -/
def TileResource.improved_food_bonus : TileResource → Int
  | .Fish | .Wheat | .Bananas | .Deer | .Crab | .Whales | .Turtles => 2
  | .Citrus => 1
  | _ => 0

/-- Rust `TileResource::improved_production_bonus`. -/
def TileResource.improved_production_bonus : TileResource → Int
  | .Cattle | .Sheep | .Stone | .Horses | .Iron | .Coal | .Oil | .Aluminum
  | .Uranium | .Marble | .Ivory => 2
  | .Copper | .Olives => 1
  | _ => 0

/-- Rust `TileResource::improved_gold_bonus`. -/
def TileResource.improved_gold_bonus : TileResource → Int
  | .Cotton | .Wine | .Silk | .Spices | .Gems => 3
  | .Citrus | .Copper | .Gold | .Olives => 2
  | .Whales | .Turtles | .Marble | .Ivory => 1
  | _ => 0

/-- The yield vector of `src/tile/yields.rs` (all fields `i32`). -/
structure TileYields where
  food : Int
  production : Int
  gold : Int
  science : Int
  culture : Int
  faith : Int
  deriving DecidableEq, Repr

/-- Rust `TileYields::calculate`: terrain base + optional feature modifier +
optional (unimproved) resource bonus, each of food/production/gold then
clamped with `.max(0)`.  The `_has_river` flag is accepted and ignored, as in
the source. -/
def TileYields.calculate (terrain : Terrain) (feature : Option TileFeature)
    (resource : Option TileResource) (_has_river : Bool) : TileYields :=
  let ffood : Int := match feature with | some feat => feat.food_modifier | none => 0
  let fprod : Int := match feature with | some feat => feat.production_modifier | none => 0
  let fgold : Int := match feature with | some feat => feat.gold_modifier | none => 0
  let rfood : Int := match resource with | some res => res.food_bonus | none => 0
  let rprod : Int := match resource with | some res => res.production_bonus | none => 0
  let rgold : Int := match resource with | some res => res.gold_bonus | none => 0
  { food := max (terrain.base_food + ffood + rfood) 0
    production := max (terrain.base_production + fprod + rprod) 0
    gold := max (terrain.base_gold + fgold + rgold) 0
    science := 0
    culture := 0
    faith := 0 }

/-- Rust `TileYields::calculate_improved`: same as `calculate` but with the
improved resource bonuses. -/
def TileYields.calculate_improved (terrain : Terrain) (feature : Option TileFeature)
    (resource : Option TileResource) (_has_river : Bool) : TileYields :=
  let ffood : Int := match feature with | some feat => feat.food_modifier | none => 0
  let fprod : Int := match feature with | some feat => feat.production_modifier | none => 0
  let fgold : Int := match feature with | some feat => feat.gold_modifier | none => 0
  let rfood : Int := match resource with | some res => res.improved_food_bonus | none => 0
  let rprod : Int := match resource with | some res => res.improved_production_bonus | none => 0
  let rgold : Int := match resource with | some res => res.improved_gold_bonus | none => 0
  { food := max (terrain.base_food + ffood + rfood) 0
    production := max (terrain.base_production + fprod + rprod) 0
    gold := max (terrain.base_gold + fgold + rgold) 0
    science := 0
    culture := 0
    faith := 0 }

/-- C4.  Yield non-negativity: for every terrain, optional feature, optional
resource and either river flag, `TileYields::calculate` returns
`food ≥ 0`, `production ≥ 0` and `gold ≥ 0` (each channel is clamped with
`max(0, ·)` after summing). -/
theorem calculate_yields_nonneg (terrain : Terrain) (feature : Option TileFeature)
    (resource : Option TileResource) (has_river : Bool) :
    0 ≤ (TileYields.calculate terrain feature resource has_river).food ∧
    0 ≤ (TileYields.calculate terrain feature resource has_river).production ∧
    0 ≤ (TileYields.calculate terrain feature resource has_river).gold :=
  ⟨le_max_right _ _, le_max_right _ _, le_max_right _ _⟩

/-- C7.  Literal yield examples: Grassland+Forest gives 2/1/0, Desert+Oasis
gives 3/0/1, Plains+Jungle gives 1/0/0 (the Jungle −1 production clamped). -/
theorem calculate_literal_examples :
    (TileYields.calculate .Grassland (some .Forest) none false).food = 2 ∧
    (TileYields.calculate .Grassland (some .Forest) none false).production = 1 ∧
    (TileYields.calculate .Grassland (some .Forest) none false).gold = 0 ∧
    (TileYields.calculate .Desert (some .Oasis) none false).food = 3 ∧
    (TileYields.calculate .Desert (some .Oasis) none false).production = 0 ∧
    (TileYields.calculate .Desert (some .Oasis) none false).gold = 1 ∧
    (TileYields.calculate .Plains (some .Jungle) none false).food = 1 ∧
    (TileYields.calculate .Plains (some .Jungle) none false).production = 0 ∧
    (TileYields.calculate .Plains (some .Jungle) none false).gold = 0 := by
  decide

/-- C8.  The `has_river` flag is inert: `TileYields::calculate` returns the
same result for `true` and `false` at every terrain/feature/resource. -/
theorem calculate_river_flag_inert (terrain : Terrain) (feature : Option TileFeature)
    (resource : Option TileResource) :
    TileYields.calculate terrain feature resource true =
      TileYields.calculate terrain feature resource false := rfl

/-- C9.  With no resource, the unimproved and improved yield calculators
coincide for every terrain, optional feature and river flag. -/
theorem calculate_eq_calculate_improved_of_no_resource (terrain : Terrain)
    (feature : Option TileFeature) (has_river : Bool) :
    TileYields.calculate terrain feature none has_river =
      TileYields.calculate_improved terrain feature none has_river := rfl

/-- The 6-bit river-edge mask of `src/tile/river.rs` (`pub struct
RiverEdges(pub u8)`); the `u8` payload is modelled as a `Nat` (every
operation keeps it below 256). -/
structure RiverEdges where
  val : Nat
  deriving DecidableEq, Repr

/-- Rust `RiverEdges::NONE`. -/
def RiverEdges.NONE : RiverEdges := ⟨0⟩

/-- Rust `RiverEdges::new`: mask to the lower 6 bits. -/
def RiverEdges.new (edges : Nat) : RiverEdges := ⟨edges &&& 0b00111111⟩

/-- Rust `RiverEdges::from_edges`: or the flags together, then go through `new`. -/
def RiverEdges.from_edges (edges : List Nat) : RiverEdges :=
  RiverEdges.new (edges.foldl (fun bits edge => bits ||| edge) 0)

/-- Rust `RiverEdges::has_river`. -/
def RiverEdges.has_river (r : RiverEdges) : Bool := r.val ≠ 0

/-- Rust `RiverEdges::set_edge`: `self.0 |= edge & 0b0011_1111`. -/
def RiverEdges.set_edge (r : RiverEdges) (edge : Nat) : RiverEdges :=
  ⟨r.val ||| (edge &&& 0b00111111)⟩

/-- Rust `RiverEdges::clear_edge`: `self.0 &= !edge`; the `u8` complement `!edge`
is `edge ^^^ 0xFF` for `edge < 256`. -/
def RiverEdges.clear_edge (r : RiverEdges) (edge : Nat) : RiverEdges :=
  ⟨r.val &&& (edge ^^^ 0xFF)⟩

/-- Rust `RiverEdges::toggle_edge`: `self.0 ^= edge & 0b0011_1111`. -/
def RiverEdges.toggle_edge (r : RiverEdges) (edge : Nat) : RiverEdges :=
  ⟨r.val ^^^ (edge &&& 0b00111111)⟩

/-- Rust `RiverEdges::bits`. -/
def RiverEdges.bits (r : RiverEdges) : Nat := r.val

/-- Rust `RiverEdges::edge_count`: `self.0.count_ones()` for the `u8` payload,
i.e. the number of set bits among bit positions 0–7. -/
def RiverEdges.edge_count (r : RiverEdges) : Nat :=
  ((List.range 8).filter (fun i => r.val.testBit i)).length

/-- The values of `RiverEdges` reachable from `new`/`from_edges` on arbitrary
`u8` inputs by arbitrary sequences of `set_edge`/`clear_edge`/`toggle_edge`
with arbitrary `u8` arguments. -/
inductive RiverEdges.Generated : RiverEdges → Prop where
  | of_new (edges : Nat) (h : edges < 256) : Generated (RiverEdges.new edges)
  | of_from_edges (edges : List Nat) (h : ∀ e ∈ edges, e < 256) :
      Generated (RiverEdges.from_edges edges)
  | of_set_edge (r : RiverEdges) (edge : Nat) (hr : Generated r) (h : edge < 256) :
      Generated (r.set_edge edge)
  | of_clear_edge (r : RiverEdges) (edge : Nat) (hr : Generated r) (h : edge < 256) :
      Generated (r.clear_edge edge)
  | of_toggle_edge (r : RiverEdges) (edge : Nat) (hr : Generated r) (h : edge < 256) :
      Generated (r.toggle_edge edge)

/-- Any `u8` whose value is at most 63 has at most 6 set bits. -/
theorem edge_count_le_six_of_le_63 (r : RiverEdges) (h : r.val ≤ 63) :
    r.edge_count ≤ 6 := by
  have h64 : r.val < 64 := Nat.lt_succ_of_le h
  have key : ∀ n : Fin 64,
      (((List.range 8).filter (fun i => (n : Nat).testBit i)).length ≤ 6) := by decide
  have := key ⟨r.val, h64⟩
  simpa [RiverEdges.edge_count] using this

/-- C10.  RiverEdges 6-bit invariant: every value built by `new` or
`from_edges` from arbitrary `u8` input, and every value reached from such a
value by `set_edge`/`clear_edge`/`toggle_edge` with arbitrary `u8` arguments,
keeps its two high bits zero (`bits() ≤ 63`), so `edge_count` never exceeds
6. -/
theorem riverEdges_generated_six_bit (r : RiverEdges) (h : r.Generated) :
    r.bits ≤ 63 ∧ r.edge_count ≤ 6 := by
  have hbits : r.bits ≤ 63 := by
    induction h with
    | of_new edges h =>
        simpa [RiverEdges.new, RiverEdges.bits] using
          Nat.lt_succ_iff.mp (Nat.and_lt_two_pow (n := 6) edges (by decide))
    | of_from_edges edges h =>
        simpa [RiverEdges.from_edges, RiverEdges.new, RiverEdges.bits] using
          Nat.lt_succ_iff.mp
            (Nat.and_lt_two_pow (n := 6) (edges.foldl (fun bits edge => bits ||| edge) 0)
              (by decide))
    | of_set_edge r edge hr h ih =>
        have h1 : r.val < 2 ^ 6 := Nat.lt_succ_of_le ih
        have h2 : edge &&& 0b00111111 < 2 ^ 6 :=
          Nat.and_lt_two_pow (n := 6) edge (by decide)
        simpa [RiverEdges.set_edge, RiverEdges.bits] using
          Nat.lt_succ_iff.mp (Nat.or_lt_two_pow h1 h2)
    | of_clear_edge r edge hr h ih =>
        exact le_trans (Nat.and_le_left) ih
    | of_toggle_edge r edge hr h ih =>
        have h1 : r.val < 2 ^ 6 := Nat.lt_succ_of_le ih
        have h2 : edge &&& 0b00111111 < 2 ^ 6 :=
          Nat.and_lt_two_pow (n := 6) edge (by decide)
        simpa [RiverEdges.toggle_edge, RiverEdges.bits] using
          Nat.lt_succ_iff.mp (Nat.xor_lt_two_pow h1 h2)
  exact ⟨hbits, edge_count_le_six_of_le_63 r hbits⟩

/-- Witness for C10: the invariant applied to the concrete value
`RiverEdges::new(0xFF)`. -/
theorem riverEdges_generated_six_bit_witness :
    (RiverEdges.new 0xFF).bits ≤ 63 ∧ (RiverEdges.new 0xFF).edge_count ≤ 6 :=
  riverEdges_generated_six_bit (RiverEdges.new 0xFF)
    (RiverEdges.Generated.of_new 0xFF (by decide))

/-- The six map-size presets of `src/map/config.rs`. -/
inductive MapSize where
  | Duel | Tiny | Small | Standard | Large | Huge
  deriving DecidableEq, Repr

/-- Rust `MapSize::dimensions` (`(i32, i32)` in the source; all values are
positive constants, modelled as `Nat`). -/
def MapSize.dimensions : MapSize → Nat × Nat
  | .Duel => (48, 32)
  | .Tiny => (56, 36)
  | .Small => (68, 44)
  | .Standard => (80, 52)
  | .Large => (104, 64)
  | .Huge => (128, 80)

/-- Rust `MapConfig` of `src/map/config.rs` (`seed` is `u64`, the four ratio
fields are `f64`, modelled as `ℚ`). -/
structure MapConfig where
  size : MapSize
  seed : Nat
  land_coverage : ℚ
  ocean_threshold : ℚ
  hill_threshold : ℚ
  mountain_threshold : ℚ
  deriving DecidableEq, Repr

/-- Rust `impl Default for MapConfig`. -/
def MapConfig.default : MapConfig :=
  { size := .Standard
    seed := 42
    land_coverage := 0.4
    ocean_threshold := 0.35
    hill_threshold := 0.55
    mountain_threshold := 0.75 }

/-- Abstract model of the external `rand::StdRng`: a deterministic seeding
function and a deterministic `gen_bool` draw over an abstract state type. -/
structure RngImpl (σ : Type) where
  seed_from_u64 : Nat → σ
  gen_bool : ℚ → σ → Bool × σ

/-- The builder arguments of `noise::Fbm::<Perlin>::new(seed)
.set_octaves(..).set_frequency(..).set_lacunarity(..).set_persistence(..)`. -/
structure FbmSpec where
  seed : Nat
  octaves : Nat
  frequency : ℚ
  lacunarity : ℚ
  persistence : ℚ
  deriving DecidableEq, Repr

/-- Abstract model of the external `noise` crate and of `f64::sqrt`: all
deterministic functions. -/
structure NoiseImpl where
  fbm_get : FbmSpec → ℚ → ℚ → ℚ
  perlin_get : Nat → ℚ → ℚ → ℚ
  sqrt : ℚ → ℚ

/-- Rust `MapGenerator` of `src/map/generator.rs`: a config plus the owned
`StdRng` state. -/
structure MapGenerator (σ : Type) where
  config : MapConfig
  rng : σ
  deriving DecidableEq

/-- Rust `MapGenerator::new`: seed the random stream from `config.seed`. -/
def MapGenerator.new (R : RngImpl σ) (config : MapConfig) : MapGenerator σ :=
  { config := config, rng := R.seed_from_u64 config.seed }

/-- Rust `MapGenerator::determine_terrain`.  The source computes
`is_hill = height > hill_threshold` once before the biome match; it is
inlined into each branch here, which is semantically identical. -/
def MapGenerator.determine_terrain (g : MapGenerator σ)
    (height temp _moisture : ℚ) : Terrain :=
  if height < g.config.ocean_threshold then
    if height < g.config.ocean_threshold * 0.6 then Terrain.Ocean else Terrain.Coast
  else if height > g.config.mountain_threshold then Terrain.Mountain
  else if temp < 0.15 then
    (if height > g.config.hill_threshold then Terrain.SnowHill else Terrain.Snow)
  else if temp < 0.30 then
    (if height > g.config.hill_threshold then Terrain.TundraHill else Terrain.Tundra)
  else if temp < 0.50 then
    (if height > g.config.hill_threshold then Terrain.GrasslandHill else Terrain.Grassland)
  else if temp < 0.80 then
    (if height > g.config.hill_threshold then Terrain.PlainsHill else Terrain.Plains)
  else
    (if height > g.config.hill_threshold then Terrain.DesertHill else Terrain.Desert)

/-- A config with a negative ocean threshold (allowed: `MapConfig` does no
range validation). -/
def negOceanConfig : MapConfig := { MapConfig.default with ocean_threshold := -1 }

/-- A generator over that config with a trivial random state. -/
def negOceanGenerator : MapGenerator Unit := { config := negOceanConfig, rng := () }

/-- Counterexample to C2 as stated: with `ocean_threshold = -1` the input
`height = -0.8` satisfies `height < ocean_threshold * 0.6` (since
`-0.8 < -0.6`), yet `determine_terrain` does not return Ocean (the source
only reaches the Ocean/Coast split behind the `height < ocean_threshold`
guard, which fails here); it classifies the tile as Plains. -/
theorem determine_terrain_decision_order_counterexample :
    ((-0.8 : ℚ) < negOceanGenerator.config.ocean_threshold * 0.6) ∧
    negOceanGenerator.determine_terrain (-0.8) 0.5 0.5 ≠ Terrain.Ocean ∧
    negOceanGenerator.determine_terrain (-0.8) 0.5 0.5 = Terrain.Plains := by
  have heval : negOceanGenerator.determine_terrain (-0.8) 0.5 0.5 = Terrain.Plains := by
    simp only [MapGenerator.determine_terrain, negOceanGenerator, negOceanConfig,
      MapConfig.default]
    norm_num
  exact ⟨by norm_num [negOceanGenerator, negOceanConfig, MapConfig.default],
    by rw [heval]; decide, heval⟩

/-- C2 (amended: restricted to configs with `0 ≤ ocean_threshold`, which the
claimed flattening of the nested Ocean/Coast test requires).  Terrain
classification decision order: Ocean if `height < ocean_threshold * 0.6`,
else Coast if `height < ocean_threshold`, else Mountain if
`height > mountain_threshold`, otherwise the biome is chosen solely by
temperature (`< 0.15` Snow, `< 0.30` Tundra, `< 0.50` Grassland, `< 0.80`
Plains, else Desert) with the hill variant exactly when
`height > hill_threshold`. -/
theorem determine_terrain_decision_order (σ : Type) (g : MapGenerator σ)
    (h0 : 0 ≤ g.config.ocean_threshold) (height temp moisture : ℚ) :
    g.determine_terrain height temp moisture =
      if height < g.config.ocean_threshold * 0.6 then Terrain.Ocean
      else if height < g.config.ocean_threshold then Terrain.Coast
      else if height > g.config.mountain_threshold then Terrain.Mountain
      else if temp < 0.15 then
        (if height > g.config.hill_threshold then Terrain.SnowHill else Terrain.Snow)
      else if temp < 0.30 then
        (if height > g.config.hill_threshold then Terrain.TundraHill else Terrain.Tundra)
      else if temp < 0.50 then
        (if height > g.config.hill_threshold then Terrain.GrasslandHill else Terrain.Grassland)
      else if temp < 0.80 then
        (if height > g.config.hill_threshold then Terrain.PlainsHill else Terrain.Plains)
      else
        (if height > g.config.hill_threshold then Terrain.DesertHill else Terrain.Desert) := by
  have hmul : g.config.ocean_threshold * 0.6 ≤ g.config.ocean_threshold := by
    nlinarith
  unfold MapGenerator.determine_terrain
  split_ifs <;> first | rfl | linarith

/-- A generator over the default config with a trivial random state. -/
def defaultGenerator : MapGenerator Unit := { config := MapConfig.default, rng := () }

/-- Witness for C2 (amended): the default config has `0 ≤ ocean_threshold`,
and at `height = 0.1`, `temp = 0.5` both sides of the decision-order
characterisation evaluate to Ocean. -/
theorem determine_terrain_decision_order_witness :
    (0 : ℚ) ≤ defaultGenerator.config.ocean_threshold ∧
    defaultGenerator.determine_terrain 0.1 0.5 0.5 =
      (if (0.1 : ℚ) < defaultGenerator.config.ocean_threshold * 0.6 then Terrain.Ocean
       else if (0.1 : ℚ) < defaultGenerator.config.ocean_threshold then Terrain.Coast
       else if (0.1 : ℚ) > defaultGenerator.config.mountain_threshold then Terrain.Mountain
       else if (0.5 : ℚ) < 0.15 then
         (if (0.1 : ℚ) > defaultGenerator.config.hill_threshold then Terrain.SnowHill
          else Terrain.Snow)
       else if (0.5 : ℚ) < 0.30 then
         (if (0.1 : ℚ) > defaultGenerator.config.hill_threshold then Terrain.TundraHill
          else Terrain.Tundra)
       else if (0.5 : ℚ) < 0.50 then
         (if (0.1 : ℚ) > defaultGenerator.config.hill_threshold then Terrain.GrasslandHill
          else Terrain.Grassland)
       else if (0.5 : ℚ) < 0.80 then
         (if (0.1 : ℚ) > defaultGenerator.config.hill_threshold then Terrain.PlainsHill
          else Terrain.Plains)
       else
         (if (0.1 : ℚ) > defaultGenerator.config.hill_threshold then Terrain.DesertHill
          else Terrain.Desert)) :=
  ⟨by norm_num [defaultGenerator, MapConfig.default],
   determine_terrain_decision_order Unit defaultGenerator
     (by norm_num [defaultGenerator, MapConfig.default]) 0.1 0.5 0.5⟩

/-- C5.  Degenerate inverted thresholds (`hill_threshold ≥
mountain_threshold`): classification is total by construction, and for any
input whose height exceeds `hill_threshold` the result is never flat land —
the Mountain branch wins whenever the tile is not water (height then also
exceeds `mountain_threshold`), and any non-water non-Mountain result is a
hill variant. -/
theorem determine_terrain_degenerate_thresholds (σ : Type) (g : MapGenerator σ)
    (hdeg : g.config.mountain_threshold ≤ g.config.hill_threshold)
    (height temp moisture : ℚ) (hh : g.config.hill_threshold < height) :
    (g.determine_terrain height temp moisture).is_flat_land = false ∧
    (g.config.ocean_threshold ≤ height →
      g.determine_terrain height temp moisture = Terrain.Mountain) ∧
    ((g.determine_terrain height temp moisture).is_water = false →
      g.determine_terrain height temp moisture ≠ Terrain.Mountain →
      (g.determine_terrain height temp moisture).is_hill = true) := by
  unfold MapGenerator.determine_terrain
  split_ifs
  all_goals first
    | exact absurd hh (by assumption)
    | refine ⟨rfl, fun hocean => ?_, fun hw hne => ?_⟩ <;>
        first
          | rfl
          | exact absurd rfl hne
          | (exfalso; linarith)
          | exact absurd hw (by simp [Terrain.is_water])

/-- A config with `hill_threshold = 0.8 ≥ mountain_threshold = 0.75`. -/
def invertedConfig : MapConfig := { MapConfig.default with hill_threshold := 0.8 }

/-- A generator over that inverted config with a trivial random state. -/
def invertedGenerator : MapGenerator Unit := { config := invertedConfig, rng := () }

/-- Witness for C5: the inverted config satisfies the hypotheses at
`height = 0.9 > hill_threshold = 0.8`, where the classifier indeed returns
Mountain (not flat land). -/
theorem determine_terrain_degenerate_thresholds_witness :
    (invertedGenerator.config.mountain_threshold ≤ invertedGenerator.config.hill_threshold ∧
      invertedGenerator.config.hill_threshold < (0.9 : ℚ)) ∧
    ((invertedGenerator.determine_terrain 0.9 0.5 0.5).is_flat_land = false ∧
      (invertedGenerator.config.ocean_threshold ≤ (0.9 : ℚ) →
        invertedGenerator.determine_terrain 0.9 0.5 0.5 = Terrain.Mountain) ∧
      ((invertedGenerator.determine_terrain 0.9 0.5 0.5).is_water = false →
        invertedGenerator.determine_terrain 0.9 0.5 0.5 ≠ Terrain.Mountain →
        (invertedGenerator.determine_terrain 0.9 0.5 0.5).is_hill = true)) :=
  ⟨⟨by norm_num [invertedGenerator, invertedConfig, MapConfig.default],
    by norm_num [invertedGenerator, invertedConfig, MapConfig.default]⟩,
   determine_terrain_degenerate_thresholds Unit invertedGenerator
     (by norm_num [invertedGenerator, invertedConfig, MapConfig.default]) 0.9 0.5 0.5
     (by norm_num [invertedGenerator, invertedConfig, MapConfig.default])⟩

/-- Forest check, the last stage of `MapGenerator::determine_feature`:
`temp < 0.6 && moisture > 0.5 && self.rng.gen_bool(0.4) &&
TileFeature::Forest.can_place_on(terrain)`.  The draw is consumed exactly
when the two scalar guards hold, as with the Rust short-circuiting `&&`. -/
def feature_forest_check (R : RngImpl σ) (terrain : Terrain) (temp moisture : ℚ)
    (s : σ) : Option TileFeature × σ :=
  if temp < 0.6 ∧ moisture > 0.5 then
    if (R.gen_bool 0.4 s).1 = true ∧ TileFeature.Forest.can_place_on terrain = true then
      (some TileFeature.Forest, (R.gen_bool 0.4 s).2)
    else (none, (R.gen_bool 0.4 s).2)
  else (none, s)

/-- Jungle check of `MapGenerator::determine_feature`:
`temp > 0.7 && moisture > 0.6 && self.rng.gen_bool(0.5) &&
TileFeature::Jungle.can_place_on(terrain)`, falling through to the forest
check. -/
def feature_jungle_check (R : RngImpl σ) (terrain : Terrain) (temp moisture : ℚ)
    (s : σ) : Option TileFeature × σ :=
  if temp > 0.7 ∧ moisture > 0.6 then
    if (R.gen_bool 0.5 s).1 = true ∧ TileFeature.Jungle.can_place_on terrain = true then
      (some TileFeature.Jungle, (R.gen_bool 0.5 s).2)
    else feature_forest_check R terrain temp moisture (R.gen_bool 0.5 s).2
  else feature_forest_check R terrain temp moisture s

/-- Marsh check of `MapGenerator::determine_feature`:
`!terrain.is_hill() && moisture > 0.7 && self.rng.gen_bool(0.2) &&
TileFeature::Marsh.can_place_on(terrain)`, falling through to the jungle
check. -/
def feature_marsh_check (R : RngImpl σ) (terrain : Terrain) (temp moisture : ℚ)
    (s : σ) : Option TileFeature × σ :=
  if terrain.is_hill = false ∧ moisture > 0.7 then
    if (R.gen_bool 0.2 s).1 = true ∧ TileFeature.Marsh.can_place_on terrain = true then
      (some TileFeature.Marsh, (R.gen_bool 0.2 s).2)
    else feature_jungle_check R terrain temp moisture (R.gen_bool 0.2 s).2
  else feature_jungle_check R terrain temp moisture s

/-- Rust `MapGenerator::determine_feature`: no feature on water, mountains or
snow; otherwise the Oasis check
(`matches!(terrain, Desert) && moisture > 0.4 && self.rng.gen_bool(0.05)`),
then marsh, jungle and forest checks in that order, threading the owned
random stream. -/
def MapGenerator.determine_feature (R : RngImpl σ) (g : MapGenerator σ)
    (terrain : Terrain) (temp moisture : ℚ) : Option TileFeature × MapGenerator σ :=
  if terrain.is_water = true ∨ terrain = Terrain.Mountain ∨ terrain = Terrain.Snow ∨
      terrain = Terrain.SnowHill then
    (none, g)
  else if terrain = Terrain.Desert ∧ moisture > 0.4 then
    if (R.gen_bool 0.05 g.rng).1 = true then
      (some TileFeature.Oasis, { g with rng := (R.gen_bool 0.05 g.rng).2 })
    else
      ((feature_marsh_check R terrain temp moisture (R.gen_bool 0.05 g.rng).2).1,
        { g with rng := (feature_marsh_check R terrain temp moisture (R.gen_bool 0.05 g.rng).2).2 })
  else
    ((feature_marsh_check R terrain temp moisture g.rng).1,
      { g with rng := (feature_marsh_check R terrain temp moisture g.rng).2 })

/-- Soundness of the forest stage: a produced feature is placeable. -/
theorem feature_forest_check_sound (R : RngImpl σ) (terrain : Terrain)
    (temp moisture : ℚ) (s : σ) (f : TileFeature)
    (h : (feature_forest_check R terrain temp moisture s).1 = some f) :
    f.can_place_on terrain = true := by
  unfold feature_forest_check at h
  by_cases h1 : temp < 0.6 ∧ moisture > 0.5
  · rw [if_pos h1] at h
    by_cases h2 : (R.gen_bool 0.4 s).1 = true ∧ TileFeature.Forest.can_place_on terrain = true
    · rw [if_pos h2] at h
      have hf : some TileFeature.Forest = some f := h
      injection hf with hf
      subst hf
      exact h2.2
    · rw [if_neg h2] at h
      exact Option.noConfusion h
  · rw [if_neg h1] at h
    exact Option.noConfusion h

/-- Soundness of the jungle stage: a produced feature is placeable. -/
theorem feature_jungle_check_sound (R : RngImpl σ) (terrain : Terrain)
    (temp moisture : ℚ) (s : σ) (f : TileFeature)
    (h : (feature_jungle_check R terrain temp moisture s).1 = some f) :
    f.can_place_on terrain = true := by
  unfold feature_jungle_check at h
  by_cases h1 : temp > 0.7 ∧ moisture > 0.6
  · rw [if_pos h1] at h
    by_cases h2 : (R.gen_bool 0.5 s).1 = true ∧ TileFeature.Jungle.can_place_on terrain = true
    · rw [if_pos h2] at h
      have hf : some TileFeature.Jungle = some f := h
      injection hf with hf
      subst hf
      exact h2.2
    · rw [if_neg h2] at h
      exact feature_forest_check_sound R terrain temp moisture _ f h
  · rw [if_neg h1] at h
    exact feature_forest_check_sound R terrain temp moisture _ f h

/-- Soundness of the marsh stage: a produced feature is placeable. -/
theorem feature_marsh_check_sound (R : RngImpl σ) (terrain : Terrain)
    (temp moisture : ℚ) (s : σ) (f : TileFeature)
    (h : (feature_marsh_check R terrain temp moisture s).1 = some f) :
    f.can_place_on terrain = true := by
  unfold feature_marsh_check at h
  by_cases h1 : terrain.is_hill = false ∧ moisture > 0.7
  · rw [if_pos h1] at h
    by_cases h2 : (R.gen_bool 0.2 s).1 = true ∧ TileFeature.Marsh.can_place_on terrain = true
    · rw [if_pos h2] at h
      have hf : some TileFeature.Marsh = some f := h
      injection hf with hf
      subst hf
      exact h2.2
    · rw [if_neg h2] at h
      exact feature_jungle_check_sound R terrain temp moisture _ f h
  · rw [if_neg h1] at h
    exact feature_jungle_check_sound R terrain temp moisture _ f h

/-- C3.  Terrain-feature compatibility invariant: whatever the random stream
does, a feature returned by `determine_feature` satisfies
`can_place_on(terrain)`, and on water (Coast/Ocean/Lake), Mountain, Snow and
SnowHill the result is always `none`. -/
theorem determine_feature_compat (σ : Type) (R : RngImpl σ) (g : MapGenerator σ)
    (terrain : Terrain) (temp moisture : ℚ) :
    (∀ f : TileFeature,
        (g.determine_feature R terrain temp moisture).1 = some f →
        f.can_place_on terrain = true) ∧
    (terrain ∈ [Terrain.Coast, Terrain.Ocean, Terrain.Lake, Terrain.Mountain,
        Terrain.Snow, Terrain.SnowHill] →
      (g.determine_feature R terrain temp moisture).1 = none) := by
  constructor
  · intro f h
    unfold MapGenerator.determine_feature at h
    by_cases h1 : terrain.is_water = true ∨ terrain = Terrain.Mountain ∨
        terrain = Terrain.Snow ∨ terrain = Terrain.SnowHill
    · rw [if_pos h1] at h
      exact Option.noConfusion h
    · rw [if_neg h1] at h
      by_cases h2 : terrain = Terrain.Desert ∧ moisture > 0.4
      · rw [if_pos h2] at h
        by_cases h3 : (R.gen_bool 0.05 g.rng).1 = true
        · rw [if_pos h3] at h
          have hf : some TileFeature.Oasis = some f := h
          injection hf with hf
          subst hf
          rw [h2.1]
          rfl
        · rw [if_neg h3] at h
          exact feature_marsh_check_sound R terrain temp moisture _ f h
      · rw [if_neg h2] at h
        exact feature_marsh_check_sound R terrain temp moisture _ f h
  · intro hmem
    unfold MapGenerator.determine_feature
    have hblocked : terrain.is_water = true ∨ terrain = Terrain.Mountain ∨
        terrain = Terrain.Snow ∨ terrain = Terrain.SnowHill := by
      fin_cases hmem <;> simp [Terrain.is_water]
    rw [if_pos hblocked]

/-- A deterministic stand-in random source whose draws always succeed. -/
def constRngTrue : RngImpl Unit :=
  { seed_from_u64 := fun _ => (), gen_bool := fun _ s => (true, s) }

/-- Witness for C3: with an always-true random source on flat desert with
moisture 0.5 the generator yields an Oasis, which is indeed placeable on
Desert; on Ocean it yields nothing. -/
theorem determine_feature_compat_witness :
    (defaultGenerator.determine_feature constRngTrue Terrain.Desert 0.5 0.5).1 =
        some TileFeature.Oasis ∧
    TileFeature.Oasis.can_place_on Terrain.Desert = true ∧
    (defaultGenerator.determine_feature constRngTrue Terrain.Ocean 0.5 0.5).1 = none :=
  ⟨by
     norm_num [MapGenerator.determine_feature, constRngTrue, Terrain.is_water]
     rw [if_neg (by decide : ¬(Terrain.Desert = Terrain.Mountain ∨
       Terrain.Desert = Terrain.Snow ∨ Terrain.Desert = Terrain.SnowHill))],
   (determine_feature_compat Unit constRngTrue defaultGenerator Terrain.Desert 0.5 0.5).1
     TileFeature.Oasis
     (by
       norm_num [MapGenerator.determine_feature, constRngTrue, Terrain.is_water]
       rw [if_neg (by decide : ¬(Terrain.Desert = Terrain.Mountain ∨
         Terrain.Desert = Terrain.Snow ∨ Terrain.Desert = Terrain.SnowHill))]),
   (determine_feature_compat Unit constRngTrue defaultGenerator Terrain.Ocean 0.5 0.5).2
     (by decide)⟩

/-- Rust `f64::MAX` exactly: `(2^53 − 1) · 2^971`. -/
def f64MAX : ℚ := (2 ^ 53 - 1) * 2 ^ 971

/-- Rust `f64::EPSILON` exactly: `2^(−52)`. -/
def f64EPSILON : ℚ := 1 / 2 ^ 52

/-- One step of the min scan in `MapGenerator::normalize_map`
(`if val < min_val { min_val = val }`). -/
def min_step (a v : ℚ) : ℚ := if v < a then v else a

/-- One step of the max scan in `MapGenerator::normalize_map`
(`if val > max_val { max_val = val }`). -/
def max_step (a v : ℚ) : ℚ := if v > a then v else a

/-- The `min_val` scan of `MapGenerator::normalize_map`, starting from
`f64::MAX`.  (The source finds min and max in one pass over the rows; the
two separate scans compute the same values.) -/
def min_val (m : List (List ℚ)) : ℚ :=
  m.foldl (fun a row => row.foldl min_step a) f64MAX

/-- The `max_val` scan of `MapGenerator::normalize_map`, starting from
`f64::MIN = -f64::MAX`. -/
def max_val (m : List (List ℚ)) : ℚ :=
  m.foldl (fun a row => row.foldl max_step a) (-f64MAX)

/-- Rust `MapGenerator::normalize_map`: rescale every cell to
`(v - min)/(max - min)` when `range > f64::EPSILON`, otherwise leave the
grid untouched. -/
def normalize_map (m : List (List ℚ)) : List (List ℚ) :=
  if max_val m - min_val m > f64EPSILON then
    m.map (List.map (fun v => (v - min_val m) / (max_val m - min_val m)))
  else m

theorem min_step_le_left (a v : ℚ) : min_step a v ≤ a := by
  unfold min_step
  split_ifs with h
  · exact le_of_lt h
  · exact le_refl a

theorem min_step_le_right (a v : ℚ) : min_step a v ≤ v := by
  unfold min_step
  split_ifs with h
  · exact le_refl v
  · exact le_of_not_lt h

theorem foldl_min_step_le_init (l : List ℚ) (a : ℚ) : l.foldl min_step a ≤ a := by
  induction l generalizing a with
  | nil => exact le_refl a
  | cons x xs ih => exact le_trans (ih (min_step a x)) (min_step_le_left a x)

theorem foldl_min_step_le_mem (l : List ℚ) (a v : ℚ) (hv : v ∈ l) :
    l.foldl min_step a ≤ v := by
  induction l generalizing a with
  | nil => cases hv
  | cons x xs ih =>
      rcases List.mem_cons.mp hv with rfl | hv2
      · exact le_trans (foldl_min_step_le_init xs (min_step a v)) (min_step_le_right a v)
      · exact ih (min_step a x) hv2

theorem foldl_min_step_mem_or (l : List ℚ) (a : ℚ) :
    l.foldl min_step a ∈ l ∨ l.foldl min_step a = a := by
  induction l generalizing a with
  | nil => exact Or.inr rfl
  | cons x xs ih =>
      rcases ih (min_step a x) with hmem | heq
      · exact Or.inl (List.mem_cons_of_mem x hmem)
      · have hfold : List.foldl min_step a (x :: xs) = min_step a x := heq
        by_cases h : x < a
        · refine Or.inl ?_
          rw [hfold]
          unfold min_step
          rw [if_pos h]
          exact List.mem_cons_self x xs
        · refine Or.inr ?_
          rw [hfold]
          unfold min_step
          rw [if_neg h]

theorem max_step_ge_left (a v : ℚ) : a ≤ max_step a v := by
  unfold max_step
  split_ifs with h
  · exact le_of_lt h
  · exact le_refl a

theorem max_step_ge_right (a v : ℚ) : v ≤ max_step a v := by
  unfold max_step
  split_ifs with h
  · exact le_refl v
  · exact le_of_not_lt h

theorem foldl_max_step_ge_init (l : List ℚ) (a : ℚ) : a ≤ l.foldl max_step a := by
  induction l generalizing a with
  | nil => exact le_refl a
  | cons x xs ih => exact le_trans (max_step_ge_left a x) (ih (max_step a x))

theorem foldl_max_step_ge_mem (l : List ℚ) (a v : ℚ) (hv : v ∈ l) :
    v ≤ l.foldl max_step a := by
  induction l generalizing a with
  | nil => cases hv
  | cons x xs ih =>
      rcases List.mem_cons.mp hv with rfl | hv2
      · exact le_trans (max_step_ge_right a v) (foldl_max_step_ge_init xs (max_step a v))
      · exact ih (max_step a x) hv2

theorem foldl_max_step_mem_or (l : List ℚ) (a : ℚ) :
    l.foldl max_step a ∈ l ∨ l.foldl max_step a = a := by
  induction l generalizing a with
  | nil => exact Or.inr rfl
  | cons x xs ih =>
      rcases ih (max_step a x) with hmem | heq
      · exact Or.inl (List.mem_cons_of_mem x hmem)
      · have hfold : List.foldl max_step a (x :: xs) = max_step a x := heq
        by_cases h : x > a
        · refine Or.inl ?_
          rw [hfold]
          unfold max_step
          rw [if_pos h]
          exact List.mem_cons_self x xs
        · refine Or.inr ?_
          rw [hfold]
          unfold max_step
          rw [if_neg h]

/-- C6.  Min-max normalization: on a non-empty grid of `f64` values whose
`max - min` range exceeds `f64::EPSILON`, `normalize_map` rescales every
cell to `(v - min)/(max - min)`, leaving every cell in `[0, 1]` with some
cell equal to 0 and some cell equal to 1; when the range is at or below
epsilon the grid is returned completely unchanged. -/
theorem normalize_map_spec (m : List (List ℚ))
    (hne : m.flatten ≠ [])
    (hb : ∀ v ∈ m.flatten, -f64MAX ≤ v ∧ v ≤ f64MAX) :
    (max_val m - min_val m ≤ f64EPSILON → normalize_map m = m) ∧
    (f64EPSILON < max_val m - min_val m →
      normalize_map m =
        m.map (List.map (fun v => (v - min_val m) / (max_val m - min_val m))) ∧
      (∀ v ∈ (normalize_map m).flatten, 0 ≤ v ∧ v ≤ 1) ∧
      (0 : ℚ) ∈ (normalize_map m).flatten ∧
      (1 : ℚ) ∈ (normalize_map m).flatten) := by
  have hminflat : min_val m = m.flatten.foldl min_step f64MAX :=
    (List.foldl_flatten min_step f64MAX m).symm
  have hmaxflat : max_val m = m.flatten.foldl max_step (-f64MAX) :=
    (List.foldl_flatten max_step (-f64MAX) m).symm
  have hminle : ∀ v ∈ m.flatten, min_val m ≤ v := by
    intro v hv
    rw [hminflat]
    exact foldl_min_step_le_mem m.flatten f64MAX v hv
  have hmaxge : ∀ v ∈ m.flatten, v ≤ max_val m := by
    intro v hv
    rw [hmaxflat]
    exact foldl_max_step_ge_mem m.flatten (-f64MAX) v hv
  obtain ⟨v0, hv0⟩ := List.exists_mem_of_ne_nil m.flatten hne
  have hminmem : min_val m ∈ m.flatten := by
    rcases foldl_min_step_mem_or m.flatten f64MAX with hmem | heq
    · rw [hminflat]
      exact hmem
    · have h1 : f64MAX ≤ v0 := heq ▸ foldl_min_step_le_mem m.flatten f64MAX v0 hv0
      have h2 : v0 = f64MAX := le_antisymm (hb v0 hv0).2 h1
      rw [hminflat, heq, ← h2]
      exact hv0
  have hmaxmem : max_val m ∈ m.flatten := by
    rcases foldl_max_step_mem_or m.flatten (-f64MAX) with hmem | heq
    · rw [hmaxflat]
      exact hmem
    · have h1 : v0 ≤ -f64MAX := heq ▸ foldl_max_step_ge_mem m.flatten (-f64MAX) v0 hv0
      have h2 : v0 = -f64MAX := le_antisymm h1 (hb v0 hv0).1
      rw [hmaxflat, heq, ← h2]
      exact hv0
  constructor
  · intro hle
    unfold normalize_map
    rw [if_neg (not_lt.mpr hle)]
  · intro hgt
    have heps : (0 : ℚ) < f64EPSILON := by norm_num [f64EPSILON]
    have hpos : 0 < max_val m - min_val m := lt_trans heps hgt
    have hnorm : normalize_map m =
        m.map (List.map (fun v => (v - min_val m) / (max_val m - min_val m))) := by
      unfold normalize_map
      rw [if_pos hgt]
    have hflat : (normalize_map m).flatten =
        m.flatten.map (fun v => (v - min_val m) / (max_val m - min_val m)) := by
      rw [hnorm, ← List.map_flatten]
    refine ⟨hnorm, ?_, ?_, ?_⟩
    · intro v hv
      rw [hflat] at hv
      obtain ⟨w, hw, rfl⟩ := List.mem_map.mp hv
      constructor
      · exact div_nonneg (sub_nonneg.mpr (hminle w hw)) (le_of_lt hpos)
      · rw [div_le_one hpos]
        have := hmaxge w hw
        linarith
    · rw [hflat]
      have : (min_val m - min_val m) / (max_val m - min_val m) = 0 := by
        rw [sub_self, zero_div]
      exact this ▸ List.mem_map_of_mem _ hminmem
    · rw [hflat]
      have : (max_val m - min_val m) / (max_val m - min_val m) = 1 :=
        div_self (ne_of_gt hpos)
      exact this ▸ List.mem_map_of_mem _ hmaxmem

/-- Witness for C6: the grid `[[0, 2], [1]]` is non-empty, within `f64`
range, and has range `2 > epsilon`; the theorem applies to it. -/
theorem normalize_map_spec_witness :
    (([[0, 2], [1]] : List (List ℚ)).flatten ≠ [] ∧
      (∀ v ∈ ([[0, 2], [1]] : List (List ℚ)).flatten, -f64MAX ≤ v ∧ v ≤ f64MAX)) ∧
    ((max_val [[0, 2], [1]] - min_val [[0, 2], [1]] ≤ f64EPSILON →
        normalize_map [[0, 2], [1]] = [[0, 2], [1]]) ∧
      (f64EPSILON < max_val [[0, 2], [1]] - min_val [[0, 2], [1]] →
        normalize_map [[0, 2], [1]] =
          ([[0, 2], [1]] : List (List ℚ)).map
            (List.map (fun v =>
              (v - min_val [[0, 2], [1]]) / (max_val [[0, 2], [1]] - min_val [[0, 2], [1]]))) ∧
        (∀ v ∈ (normalize_map [[0, 2], [1]]).flatten, 0 ≤ v ∧ v ≤ 1) ∧
        (0 : ℚ) ∈ (normalize_map [[0, 2], [1]]).flatten ∧
        (1 : ℚ) ∈ (normalize_map [[0, 2], [1]]).flatten)) :=
  ⟨⟨by simp, by
      intro v hv
      fin_cases hv <;> constructor <;> norm_num [f64MAX]⟩,
   normalize_map_spec [[0, 2], [1]] (by simp)
     (by
       intro v hv
       fin_cases hv <;> constructor <;> norm_num [f64MAX])⟩

/-- Axial tile position of `src/hex/coord.rs` (`TilePosition::new(q, r)`
with `i32` coordinates; the wrapped external hex library only stores the
pair here). -/
structure TilePosition where
  q : Int
  r : Int
  deriving DecidableEq, Repr

/-- Rust `TilePosition::new`. -/
def TilePosition.new (q r : Int) : TilePosition := { q := q, r := r }

/-- The component bundle of `src/tile/bundle.rs` (the zero-size marker
component `Tile` is omitted). -/
structure TileBundle where
  position : TilePosition
  terrain : Terrain
  yields : TileYields
  rivers : RiverEdges
  deriving DecidableEq, Repr

/-- Rust `TileComponents`, the output of `TileBuilder::build`. -/
structure TileComponents where
  bundle : TileBundle
  feature : Option TileFeature
  resource : Option TileResource
  deriving DecidableEq, Repr

/-- Rust `TileBuilder` of `src/tile/bundle.rs`. -/
structure TileBuilder where
  position : TilePosition
  terrain : Terrain
  feature : Option TileFeature
  resource : Option TileResource
  rivers : RiverEdges
  deriving DecidableEq, Repr

/-- Rust `TileBuilder::new`. -/
def TileBuilder.new (position : TilePosition) (terrain : Terrain) : TileBuilder :=
  { position := position, terrain := terrain, feature := none, resource := none,
    rivers := RiverEdges.NONE }

/-- Modelled from the spec: `TileBuilder::feature_opt` is called by
`MapGenerator::generate` but its definition is missing from the sources;
per spec §4.4 the driver attaches the optional feature chosen by the classifier to the
tile record, so this sets the optional feature field of the builder. -/
def TileBuilder.feature_opt (b : TileBuilder) (feature : Option TileFeature) : TileBuilder :=
  { b with feature := feature }

/-- Rust `TileBuilder::build`: recompute yields from all determinants. -/
def TileBuilder.build (b : TileBuilder) : TileComponents :=
  { bundle :=
      { position := b.position
        terrain := b.terrain
        yields := TileYields.calculate b.terrain b.feature b.resource b.rivers.has_river
        rivers := b.rivers }
    feature := b.feature
    resource := b.resource }

/-- Rust `MapGenerator::generate_height_map`: 6-octave Fbm noise seeded with
`config.seed as u32`, multiplied by the radial edge falloff, then min-max
normalized.  Grid indexed `[x][y]`, `x < width`, `y < height`. -/
def MapGenerator.generate_height_map (N : NoiseImpl) (g : MapGenerator σ) :
    List (List ℚ) :=
  let width := g.config.size.dimensions.1
  let height := g.config.size.dimensions.2
  let fbm : FbmSpec :=
    { seed := g.config.seed % 2 ^ 32, octaves := 6, frequency := 0.02,
      lacunarity := 2.0, persistence := 0.5 }
  let raw := (List.range width).map fun x =>
    (List.range height).map fun y =>
      let h := N.fbm_get fbm (x : ℚ) (y : ℚ)
      let edge_x := |(x : ℚ) / (width : ℚ) - 0.5| * 2
      let edge_y := |(y : ℚ) / (height : ℚ) - 0.5| * 2
      let edge_falloff := 1 - min (N.sqrt (edge_x ^ 2 + edge_y ^ 2)) 1
      h * edge_falloff
  normalize_map raw

/-- Rust `MapGenerator::generate_temperature_map`: latitude gradient plus a
single-octave Perlin perturbation scaled to ±0.2, clamped to `[0, 1]`; the
Perlin seed is `config.seed as u32 + 1000` (with `u32` wrap-around). -/
def MapGenerator.generate_temperature_map (N : NoiseImpl) (g : MapGenerator σ) :
    List (List ℚ) :=
  let width := g.config.size.dimensions.1
  let height := g.config.size.dimensions.2
  let perlinSeed := (g.config.seed % 2 ^ 32 + 1000) % 2 ^ 32
  (List.range width).map fun x =>
    (List.range height).map fun y =>
      let latitude_factor := |(y : ℚ) / (height : ℚ) - 0.5| * 2
      let base_temp := 1 - latitude_factor
      let noise_val := N.perlin_get perlinSeed ((x : ℚ) * 0.05) ((y : ℚ) * 0.05) * 0.2
      min (max (base_temp + noise_val) 0) 1

/-- Rust `MapGenerator::generate_moisture_map`: 4-octave Fbm noise seeded
with `config.seed as u32 + 2000` (with `u32` wrap-around), min-max
normalized. -/
def MapGenerator.generate_moisture_map (N : NoiseImpl) (g : MapGenerator σ) :
    List (List ℚ) :=
  let width := g.config.size.dimensions.1
  let height := g.config.size.dimensions.2
  let fbm : FbmSpec :=
    { seed := (g.config.seed % 2 ^ 32 + 2000) % 2 ^ 32, octaves := 4, frequency := 0.03,
      lacunarity := 2.0, persistence := 0.5 }
  normalize_map ((List.range width).map fun x =>
    (List.range height).map fun y => N.fbm_get fbm (x : ℚ) (y : ℚ))

/-- Rust `MapGenerator::generate`: build the three noise fields, then walk
the grid with `q` as the outer and `r` as the inner loop, classifying
terrain and feature per coordinate (the feature draw threads the single
owned random stream) and assembling one tile record per coordinate via
`TileBuilder`.  Entity spawning is external; the created records are
returned in traversal order together with the final generator state. -/
def MapGenerator.generate (R : RngImpl σ) (N : NoiseImpl) (g : MapGenerator σ) :
    List TileComponents × MapGenerator σ :=
  let width := g.config.size.dimensions.1
  let height := g.config.size.dimensions.2
  let height_map := g.generate_height_map N
  let temperature_map := g.generate_temperature_map N
  let moisture_map := g.generate_moisture_map N
  (List.range width).foldl
    (fun acc q =>
      (List.range height).foldl
        (fun acc2 r =>
          let gcur := acc2.2
          let hv := (height_map.getD q []).getD r 0
          let tv := (temperature_map.getD q []).getD r 0
          let mv := (moisture_map.getD q []).getD r 0
          let terrain := gcur.determine_terrain hv tv mv
          let fg := gcur.determine_feature R terrain tv mv
          let position := TilePosition.new (q : Int) (r : Int)
          let components := ((TileBuilder.new position terrain).feature_opt fg.1).build
          (acc2.1 ++ [components], fg.2))
        acc)
    ([], g)

/-- C1.  Determinism of generation: the constructor derives the random
state purely from `config.seed`, and two independent `MapGenerator`
instances built from the same `MapConfig` produce bit-identical height,
temperature and moisture fields and identical tile records (terrain and
feature per coordinate), for every deterministic external noise, square
root and random-stream implementation. -/
theorem generation_deterministic (σ : Type) (R : RngImpl σ) (N : NoiseImpl)
    (config : MapConfig) :
    (MapGenerator.new R config).rng = R.seed_from_u64 config.seed ∧
    (MapGenerator.new R config).generate_height_map N =
      (MapGenerator.new R config).generate_height_map N ∧
    (MapGenerator.new R config).generate_temperature_map N =
      (MapGenerator.new R config).generate_temperature_map N ∧
    (MapGenerator.new R config).generate_moisture_map N =
      (MapGenerator.new R config).generate_moisture_map N ∧
    (MapGenerator.new R config).generate R N =
      (MapGenerator.new R config).generate R N :=
  ⟨rfl, rfl, rfl, rfl, rfl⟩

end Civ
